import Mathlib

/-!
Shallow embedding of the AI battle engine in src/dynamic_prompt_test.py
(class AIGameEngine).  Python dicts holding backend records are modelled as
structures with Option fields (a missing key is none); the mutable
game_data dict is the structure GameState.  Wall-clock timestamps and
console printing are not modelled (no claim mentions them).  The backend
call (OpenAI client) and json.loads are external libraries: they are
modelled as explicit function parameters, while everything the repository
itself computes is embedded from the source.
-/

/-- A skill entry, as produced by the backend or the mock generator
(dynamic_prompt_test.py lines 95-105). -/
structure Skill where
  name : String
  cost : Int
  effect : String
deriving DecidableEq

/-- A combatant dict as stored in game_data["player"] / ["enemy"].  Keys may
be absent in backend data (initialize_game line 316 stores the parsed dict
raw), hence Option fields. -/
structure CombatantRecord where
  name : Option String := none
  hp : Option Int := none
  max_hp : Option Int := none
  conc : Option Int := none
  atk : Option Int := none
  spd : Option Int := none
  skills : Option (List Skill) := none
deriving DecidableEq

/-- The "status" sub-dict of a round record (round schema). -/
structure RoundStatus where
  player_hp : Option Int := none
  enemy_hp : Option Int := none
  player_conc : Option Int := none
  enemy_conc : Option Int := none
deriving DecidableEq

/-- A parsed round response (round schema, play_round lines 422-436). -/
structure RoundRecord where
  narrative : Option String := none
  status : Option RoundStatus := none
  phase : Option String := none
  dialogue : Option String := none
  damage_dealt : Option String := none
  player_skill_used : Option String := none
  enemy_skill_used : Option String := none
deriving DecidableEq

/-- A parsed initialization response (init schema, lines 274-305). -/
structure InitRecord where
  player : Option CombatantRecord := none
  enemy : Option CombatantRecord := none
  reason : Option String := none
  opening : Option String := none
deriving DecidableEq

/-- history entries (lines 337-342 and 470-477).  The wall-clock timestamp
field is omitted: nothing in the engine reads it back. -/
inductive HistoryEntry where
  | initEntry (data : InitRecord) (narrative : String)
  | roundEntry (round : Nat) (action : String) (player_skill : String)
      (enemy_skill : String) (data : RoundRecord)
deriving DecidableEq

/-- The game_data dict (lines 76-86). -/
structure GameState where
  player : CombatantRecord
  enemy : CombatantRecord
  battle_reason : String
  history : List HistoryEntry
  current_summary : String
  round : Nat
  phase : String
  mode : String
  enemy_skills_used : List String
deriving DecidableEq

/-- The value of game_data["player"] before initialization (line 77). -/
def emptyCombatant : CombatantRecord :=
  { name := some (""), hp := some 0, max_hp := some 0, conc := some 0,
    skills := some [] }

/-- game_data as built by the constructor in mock mode (lines 76-86,
use_mock true so mode is 模拟). -/
def freshGameState : GameState :=
  { player := emptyCombatant, enemy := emptyCombatant, battle_reason := "",
    history := [], current_summary := "战斗开始...", round := 0,
    phase := "init", mode := "模拟", enemy_skills_used := [] }

/-- The canned player of the mock init response (lines 93-99). -/
def mockPlayer : CombatantRecord :=
  { name := some ("流浪武士"), hp := some 1200, max_hp := some 1200,
    conc := some 100, atk := some 3, spd := some 7,
    skills := some [
      { name := "拔刀斩", cost := 20, effect := "造成200-300伤害" },
      { name := "心眼", cost := 15, effect := "下回合攻击必中" },
      { name := "剑气护体", cost := 25, effect := "获得200点护盾" },
      { name := "冥想", cost := 0, effect := "恢复50点CONC" }] }

/-- The canned enemy of the mock init response (lines 100-106). -/
def mockEnemy : CombatantRecord :=
  { name := some ("机械章鱼"), hp := some 1500, max_hp := some 1500,
    conc := some 100, atk := some 4, spd := some 5,
    skills := some [
      { name := "触手鞭笞", cost := 20, effect := "造成180-280伤害" },
      { name := "油污喷射", cost := 25, effect := "降低目标SPD 3点" },
      { name := "电磁脉冲", cost := 30, effect := "沉默目标1回合" },
      { name := "能量回收", cost := 0, effect := "恢复40点CONC" }] }

/-- The full mock init response after json parsing (lines 92-109). -/
def mockInitRecord : InitRecord :=
  { player := some mockPlayer, enemy := some mockEnemy,
    reason := some ("争夺最后的反物质电池，为各自的族群续命"),
    opening := some ("硝烟弥漫的废土上，武士的刀锋与机械的触手遥相对峙...") }

/-- The enemy skill fixed by the round bucket of _call_ai_mock, as a
function of current_round = round + 1 (lines 115-142). -/
def mockBucketSkill (current_round : Nat) : String :=
  if current_round ≤ 3 then "触手鞭笞"
  else if current_round ≤ 6 then "油污喷射"
  else if current_round ≤ 9 then "电磁脉冲"
  else "触手鞭笞"

/-- The round branch of _call_ai_mock (lines 111-177): builds the canned
round record from the current game state and, as a side effect, records the
chosen enemy skill in game_data["enemy_skills_used"] (lines 145-146).
The Python code reads name/hp/conc keys directly (raising on a missing
key); every engine path reaching this call has them present, and the reads
are modelled with a getD default.  The returned record is the json text of
lines 164-177 after parsing; serialization and reparsing of this complete
literal is the identity. -/
def callAiMockRound (s : GameState) : GameState × RoundRecord :=
  let current_round := s.round + 1
  let pname := s.player.name.getD ("")
  let ename := s.enemy.name.getD ("")
  let branch : String × String × String × Int × Int :=
    if current_round ≤ 3 then
      let enemy_skill := "触手鞭笞"
      (s!"第{current_round}回合：{pname}发起攻击，{ename}迅速反击！", enemy_skill,
       s!"{ename}：尝尝这个！{enemy_skill}！", 120, 100)
    else if current_round ≤ 6 then
      let enemy_skill := "油污喷射"
      (s!"第{current_round}回合：战斗进入白热化！双方都使出强力技能！", enemy_skill,
       s!"{ename}：检测到威胁升级，启动{enemy_skill}！", 180, 150)
    else if current_round ≤ 9 then
      let enemy_skill := "电磁脉冲"
      (s!"第{current_round}回合：决胜时刻！双方都拿出了压箱底的绝招！", enemy_skill,
       s!"{ename}：释放{enemy_skill}，你无法行动了！", 250, 200)
    else
      (s!"第{current_round}回合：战斗接近尾声，双方都已精疲力竭...", "触手鞭笞",
       "双方都喘息着，寻找最后一击的机会...", 100, 80)
  match branch with
  | (narrative, enemy_skill, dialogue, player_damage, enemy_damage) =>
    let s :=
      if enemy_skill ∉ s.enemy_skills_used then
        { s with enemy_skills_used := s.enemy_skills_used ++ [enemy_skill] }
      else s
    let player_hp := max 0 (s.player.hp.getD 0 - enemy_damage)
    let enemy_hp := max 0 (s.enemy.hp.getD 0 - player_damage)
    let player_conc := max 0 (s.player.conc.getD 0 - 20)
    let enemy_conc := max 0 (s.enemy.conc.getD 0 - 25)
    let phase :=
      if player_hp ≤ 300 ∨ enemy_hp ≤ 300 then "climax"
      else if player_hp ≤ 0 ∨ enemy_hp ≤ 0 then "ending"
      else "battle"
    (s,
     { narrative := some narrative,
       status := some { player_hp := some player_hp, enemy_hp := some enemy_hp,
                        player_conc := some player_conc,
                        enemy_conc := some enemy_conc },
       phase := some phase,
       dialogue := some dialogue,
       damage_dealt :=
         some (s!"玩家造成了{player_damage}点伤害，敌人造成了{enemy_damage}点伤害"),
       player_skill_used := some ("模拟技能"),
       enemy_skill_used := some enemy_skill })

/-- The function _call_ai_mock (lines 88-177): the branch on line 91 tests whether the
prompt contains the marker 初始化 or 初始设定; the prompt is modelled by
that bit.  The init branch returns the canned init record without touching
state; the round branch is callAiMockRound. -/
def callAiMock (hasInitMarker : Bool) (s : GameState) :
    GameState × (InitRecord ⊕ RoundRecord) :=
  if hasInitMarker then (s, Sum.inl mockInitRecord)
  else
    let p := callAiMockRound s
    (p.1, Sum.inr p.2)

/-- The status-fixing block of play_round (lines 444-453): each field is
read with a 0 default and clamped by max(0, min(v, 2000)) for hp and
max(0, min(v, 100)) for conc, writing the result back into the dict. -/
def clampStatus (st : RoundStatus) : RoundStatus :=
  { player_hp := some (max 0 (min (st.player_hp.getD 0) 2000)),
    enemy_hp := some (max 0 (min (st.enemy_hp.getD 0) 2000)),
    player_conc := some (max 0 (min (st.player_conc.getD 0) 100)),
    enemy_conc := some (max 0 (min (st.enemy_conc.getD 0) 100)) }

/-- is_game_over (lines 484-491).  The hp keys are read directly in
Python; the getD 0 default stands for that read. -/
def isGameOver (s : GameState) : Bool :=
  decide (s.player.hp.getD 0 ≤ 0) || decide (s.enemy.hp.getD 0 ≤ 0) ||
    (s.phase == "ending") || decide (20 ≤ s.round)

/-- The dict returned by get_game_status (lines 493-504). -/
structure Snapshot where
  round : Nat
  phase : String
  player : CombatantRecord
  enemy : CombatantRecord
  game_over : Bool
  history_count : Nat
  mode : String
  enemy_skills_used : List String
deriving DecidableEq

/-- get_game_status (lines 493-504) at the value level: the combatant
dicts and the used-skills list are copied with .copy().  Object identity
and the shallowness of those copies are modelled separately (the Obj
definitions below). -/
def getGameStatus (s : GameState) : Snapshot :=
  { round := s.round, phase := s.phase, player := s.player,
    enemy := s.enemy, game_over := isGameOver s,
    history_count := s.history.length, mode := s.mode,
    enemy_skills_used := s.enemy_skills_used }

/-- update_summary (lines 368-383).  callText stands for call_ai on the
summary prompt: it returns the reply together with any state effect of the
call (in offline mode the mock round branch runs and may append a skill).
The conditional assignment on lines 379-380 touches only
current_summary, so it is written as a conditional value for that field;
the try/except around the call cannot fire in this total model. -/
def updateSummaryWith (callText : GameState → GameState × String)
    (s : GameState) : GameState :=
  if s.history.length < 2 then s
  else if s.history.length % 3 == 0 then
    let p := callText s
    let s2 := p.1
    let summary := p.2
    { s2 with current_summary :=
        if summary ≠ "" ∧ 10 < summary.length then summary
        else s2.current_summary }
  else s

/-- play_round (lines 385-482) with the two backend interactions
abstracted: callAiRound takes the post-increment state and returns the
repaired round record plus the state effect of the call (the offline
generator mutates used-skills), and callText likewise for the summary
call inside update_summary.  The prompt string (lines 404-437) only feeds
the backend and is not rebuilt here. -/
def playRoundWith (callAiRound : GameState → GameState × RoundRecord)
    (callText : GameState → GameState × String)
    (player_action : String) (s : GameState) : GameState × RoundRecord :=
  let s := { s with round := s.round + 1 }
  let p := callAiRound s
  let s := p.1
  let round_data := p.2
  let q :=
    match round_data.status with
    | some st =>
      let st := clampStatus st
      ({ s with
           player := { s.player with hp := st.player_hp, conc := st.player_conc },
           enemy := { s.enemy with hp := st.enemy_hp, conc := st.enemy_conc } },
       { round_data with status := some st })
    | none => (s, round_data)
  let s := q.1
  let round_data := q.2
  let s :=
    match round_data.phase with
    | some ph => { s with phase := ph }
    | none => s
  let enemy_skill_used := round_data.enemy_skill_used.getD ("")
  let s :=
    if enemy_skill_used ≠ "" ∧ enemy_skill_used ∉ s.enemy_skills_used then
      { s with enemy_skills_used := s.enemy_skills_used ++ [enemy_skill_used] }
    else s
  let s := { s with history := s.history ++
      [HistoryEntry.roundEntry s.round player_action
        (round_data.player_skill_used.getD ("")) enemy_skill_used round_data] }
  let s := updateSummaryWith callText s
  (s, round_data)

/-- initialize_game (lines 264-366) after the backend response has been
repaired into data.  When both combatant dicts are present they are stored
raw; defaults are applied only when the hp key is missing (lines 326-334),
in which case max_hp and conc are overwritten too.  Otherwise the mock
init record is substituted wholesale (lines 346-364). -/
def initGameWith (data : InitRecord) (s : GameState) :
    GameState × InitRecord :=
  match data.player, data.enemy with
  | some p, some e =>
    let s := { s with
                 player := p, enemy := e,
                 battle_reason := data.reason.getD ("未知原因"),
                 phase := "battle", round := 0, enemy_skills_used := [] }
    let s :=
      if s.player.hp.isNone then
        { s with player := { s.player with
            hp := some 1000, max_hp := some 1000, conc := some 100 } }
      else s
    let s :=
      if s.enemy.hp.isNone then
        { s with enemy := { s.enemy with
            hp := some 1200, max_hp := some 1200, conc := some 100 } }
      else s
    let s := { s with history := s.history ++
        [HistoryEntry.initEntry data (data.opening.getD ("战斗开始！"))] }
    (s, data)
  | _, _ =>
    let dd := mockInitRecord
    let s := { s with
                 player := mockPlayer, enemy := mockEnemy,
                 battle_reason := dd.reason.getD ("未知原因"),
                 phase := "battle", round := 0, enemy_skills_used := [] }
    let s := { s with history := s.history ++
        [HistoryEntry.initEntry dd (dd.opening.getD ("战斗开始！"))] }
    (s, dd)

/-- initialize_game in offline mode: the init prompt carries the 初始设定
marker, so call_ai returns the mock init json, which parses verbatim. -/
def initGameOffline (s : GameState) : GameState × InitRecord :=
  initGameWith mockInitRecord s

/-- play_round in offline mode: the round prompt lacks the init marker, so
call_ai runs the mock round branch, whose json parses verbatim; the
summary prompt also lacks the marker, so that call is the round branch
too, serialized by json.dumps — abstracted as dump. -/
def playRoundOffline (dump : RoundRecord → String) (action : String)
    (s : GameState) : GameState × RoundRecord :=
  playRoundWith callAiMockRound
    (fun t =>
      let p := callAiMockRound t
      (p.1, dump p.2))
    action s

/-- The state after offline initialization from a fresh engine. -/
def sAfterInit : GameState := (initGameOffline freshGameState).1

/-- An opening brace character (written by code point to keep brace
characters out of the literal text). -/
def lbrace : Char := Char.ofNat 123

/-- A closing brace character. -/
def rbrace : Char := Char.ofNat 125

/-- Python str.find for a single character: index of the first occurrence,
-1 when absent. -/
def pyFind (cs : List Char) (c : Char) : Int :=
  match cs.findIdx? (fun x => x = c) with
  | some i => (i : Int)
  | none => -1

/-- Python str.rfind for a single character: index of the last occurrence,
-1 when absent. -/
def pyRfind (cs : List Char) (c : Char) : Int :=
  match cs.reverse.findIdx? (fun x => x = c) with
  | some i => (cs.length : Int) - 1 - i
  | none => -1

/-- The whitespace set of Python str.strip. -/
def pyIsSpace (c : Char) : Bool :=
  c = ' ' ∨ c = '\t' ∨ c = '\n' ∨ c = '\r' ∨ c = '\x0b' ∨ c = '\x0c'

/-- Python str.strip on a character list: drop whitespace from both
ends. -/
def pyStripChars (cs : List Char) : List Char :=
  ((cs.dropWhile pyIsSpace).reverse.dropWhile pyIsSpace).reverse

/-- Python str.strip. -/
def pyStrip (text : String) : String := (pyStripChars text.data).asString

/-- Python str.split on a single separator character: k separators yield
k+1 pieces, empty pieces kept. -/
def splitOnChar (c : Char) : List Char → List (List Char)
  | [] => [[]]
  | x :: xs =>
    let r := splitOnChar c xs
    if x = c then [] :: r
    else
      match r with
      | [] => [[x]]
      | y :: ys => (x :: y) :: ys

/-- Python str.join with a single separator character. -/
def joinWithChar (c : Char) : List (List Char) → List Char
  | [] => []
  | [x] => x
  | x :: xs => x ++ c :: joinWithChar c xs

/-- Lines 234-239 of extract_json: text[start:end] for start the first
brace and end one past the last closing brace, none when the guard
start != -1 and end != 0 fails. -/
def braceSubstring (text : String) : Option String :=
  let start := pyFind text.data lbrace
  let stop := pyRfind text.data rbrace + 1
  if start ≠ -1 ∧ stop ≠ 0 then
    some (((text.data.drop start.toNat).take (stop - start).toNat).asString)
  else none

/-- Lines 246-253 of extract_json: split on newlines, strip each line, drop
lines starting with // or #, and rejoin with newlines. -/
def stripCommentLines (text : String) : String :=
  let lines := splitOnChar '\n' text.data
  let cleaned := (lines.map pyStripChars).filter
    (fun l => ¬ [ '/', '/' ].isPrefixOf l ∧ ¬ [ '#' ].isPrefixOf l)
  (joinWithChar '\n' cleaned).asString

/-- extract_json (lines 220-262).  loads stands for json.loads, returning
none where Python raises; a raising second attempt and a failing guard
both leave attempt two unproductive, exactly the bind on braceSubstring.
The final fallback (line 262) parses the output of _call_ai_mock with
prompt 模拟数据, which lacks the init marker, so the mock round branch
runs — including its used-skills side effect — and its record is returned.
The same Python function also serves the init schema; that call site is
modelled by the data parameter of initGameWith. -/
def extractJson (loads : String → Option RoundRecord) (text0 : String)
    (s : GameState) : GameState × RoundRecord :=
  let text := pyStrip text0
  match loads text with
  | some d => (s, d)
  | none =>
    match (braceSubstring text).bind loads with
    | some d => (s, d)
    | none =>
      match loads (stripCommentLines text) with
      | some d => (s, d)
      | none => callAiMockRound s

/-- The retry loop of _call_ai_real (lines 185-211).  oracle gives each
attempt's outcome (some text on success, none where the API call raises);
the returned list holds the backoff waits performed, in seconds.  Fuel
counts the remaining iterations of range(max_retries); the fuel-0 case is
the fallthrough return on line 211, unreachable for positive
max_retries. -/
def callAiRealGo (oracle : Nat → Option String) (mockText : String)
    (max_retries : Nat) : Nat → Nat → List Nat → String × List Nat
  | 0, _, waits => (mockText, waits)
  | fuel + 1, attempt, waits =>
    match oracle attempt with
    | some resp => (resp, waits)
    | none =>
      if attempt < max_retries - 1 then
        callAiRealGo oracle mockText max_retries fuel (attempt + 1)
          (waits ++ [2 ^ attempt])
      else
        (mockText, waits)

/-- The function _call_ai_real (lines 179-211) for an initialized client: runs the
retry loop from attempt 0.  mockText is the offline output
_call_ai_mock(prompt, temperature) for the same prompt. -/
def callAiReal (oracle : Nat → Option String) (mockText : String)
    (max_retries : Nat) : String × List Nat :=
  callAiRealGo oracle mockText max_retries max_retries 0 []

/-!
Object-level model for get_game_status: Python dicts and lists are heap
objects.  The skills entry of a combatant dict is a reference to a list
object, written skillsRef; a heap maps references to skill lists.
dict.copy() (lines 498-499) copies the top-level slots — including the
reference stored under skills — but allocates no new list, so the copy
shares skillsRef with the original.  list.copy() (line 503) allocates a
fresh list with the same elements, so the used-skills sequence is modelled
by value.
-/

/-- A combatant dict with its skills list held by reference. -/
structure ObjCombatant where
  name : String
  hp : Int
  max_hp : Int
  conc : Int
  skillsRef : Nat
deriving DecidableEq

/-- The engine state as seen by get_game_status, skills by reference. -/
structure ObjState where
  player : ObjCombatant
  enemy : ObjCombatant
  round : Nat
  phase : String
  historyLen : Nat
  mode : String
  enemy_skills_used : List String
deriving DecidableEq

/-- The snapshot dict returned by get_game_status, skills by reference. -/
structure ObjSnapshot where
  round : Nat
  phase : String
  player : ObjCombatant
  enemy : ObjCombatant
  game_over : Bool
  history_count : Nat
  mode : String
  enemy_skills_used : List String
deriving DecidableEq

/-- A heap of list objects reachable through skills references. -/
def SkillHeap : Type := Nat → List Skill

/-- is_game_over (lines 484-491) over the object-level state. -/
def objIsGameOver (s : ObjState) : Bool :=
  decide (s.player.hp ≤ 0) || decide (s.enemy.hp ≤ 0) ||
    (s.phase == "ending") || decide (20 ≤ s.round)

/-- dict.copy() on a combatant dict: top-level slots are duplicated; the
skills slot holds the same list reference. -/
def copyCombatantDict (c : ObjCombatant) : ObjCombatant :=
  { name := c.name, hp := c.hp, max_hp := c.max_hp, conc := c.conc,
    skillsRef := c.skillsRef }

/-- get_game_status (lines 493-504) at the object level: the combatant
dicts are shallow-copied, the used-skills list is copied by value. -/
def objGetGameStatus (s : ObjState) : ObjSnapshot :=
  { round := s.round, phase := s.phase,
    player := copyCombatantDict s.player,
    enemy := copyCombatantDict s.enemy,
    game_over := objIsGameOver s,
    history_count := s.historyLen, mode := s.mode,
    enemy_skills_used := s.enemy_skills_used }

/-- An in-place mutation of the list object behind a reference: the heap
after a caller appends a skill to the list it reached through ref. -/
def heapAppendAt (h : SkillHeap) (ref : Nat) (sk : Skill) : SkillHeap :=
  fun r => if r = ref then h r ++ [sk] else h r

/-!
Concrete fixtures used by counterexamples and witnesses.
-/

/-- A crafted backend response that forces player hp to 0 while reporting
phase battle. -/
def rdPlayerDown : RoundRecord :=
  { narrative := some ("玩家倒下"),
    status := some { player_hp := some 0, enemy_hp := some 1500,
                     player_conc := some 50, enemy_conc := some 50 },
    phase := some ("battle"),
    enemy_skill_used := some ("触手鞭笞") }

/-- A backend response reporting player hp 2000, above the offline
player's max_hp of 1200. -/
def rdOverMax : RoundRecord :=
  { status := some { player_hp := some 2000, enemy_hp := some 1500,
                     player_conc := some 50, enemy_conc := some 50 },
    phase := some ("battle") }

/-- A fixture history of the given length (entry contents are irrelevant
to the summary trigger, which reads only the length). -/
def dummyHistory (n : Nat) : List HistoryEntry :=
  List.replicate n (HistoryEntry.initEntry mockInitRecord ("开场"))

/-- The engine state at the end of the 3rd completed turn: round 3,
history of length 4 (init plus three rounds). -/
def sThirdTurnDone : GameState :=
  { freshGameState with
      round := 3, history := dummyHistory 4,
      player := mockPlayer, enemy := mockEnemy, phase := "battle" }

/-- The engine state at the end of the 2nd completed turn: round 2,
history of length 3. -/
def sSecondTurnDone : GameState :=
  { freshGameState with
      round := 2, history := dummyHistory 3,
      player := mockPlayer, enemy := mockEnemy, phase := "battle" }

/-- A 26-character summary reply, comfortably above the length-10
threshold. -/
def longReply : String := "abcdefghijklmnopqrstuvwxyz"

/-- A demo skill sitting in a snapshot-shared skills list. -/
def demoSkill : Skill := { name := "拔刀斩", cost := 20, effect := "斩击" }

/-- A second skill a caller appends through the snapshot. -/
def injectedSkill : Skill := { name := "注入", cost := 0, effect := "外部写入" }

/-- A concrete heap: every reference initially holds the one-skill list. -/
def heap0 : SkillHeap := fun _ => [demoSkill]

/-- A concrete object-level engine state; the player skills live at
reference 0, the enemy skills at reference 1. -/
def objS0 : ObjState :=
  { player := { name := "流浪武士", hp := 1200, max_hp := 1200, conc := 100,
                skillsRef := 0 },
    enemy := { name := "机械章鱼", hp := 1500, max_hp := 1500, conc := 100,
               skillsRef := 1 },
    round := 1, phase := "battle", historyLen := 2, mode := "模拟",
    enemy_skills_used := [] }

/-- The heap after the caller appends a skill, in place, to the skills
list reached through the snapshot returned by get_game_status. -/
def heapAfterCallerMutation : SkillHeap :=
  heapAppendAt heap0 (objGetGameStatus objS0).player.skillsRef injectedSkill

/-- A repaired record carrying a phase but no status block. -/
def rdNoStatus : RoundRecord := { phase := some ("battle") }

/-- The state after one play_round on the post-initialization state with
the crafted hp-0 response. -/
def sAfterCrafted : GameState :=
  (playRoundWith (fun t => (t, rdPlayerDown)) (fun t => (t, "")) ("attack")
    sAfterInit).1

/-- The state after one play_round on the post-initialization state with
the over-max hp response. -/
def sAfterOverMax : GameState :=
  (playRoundWith (fun t => (t, rdOverMax)) (fun t => (t, "")) ("attack")
    sAfterInit).1

/-- The state after one play_round on the post-initialization state with
the status-free response. -/
def sAfterNoStatus : GameState :=
  (playRoundWith (fun t => (t, rdNoStatus)) (fun t => (t, "")) ("attack")
    sAfterInit).1

/-!
Helper lemmas: the effect of play_round when the backend interaction is a
pure record rd and the summary reply a pure string.
-/

theorem prw_round_succ (rd : RoundRecord) (reply action : String)
    (s : GameState) :
    ((playRoundWith (fun t => (t, rd)) (fun t => (t, reply)) action s).1).round
      = s.round + 1 := by
  obtain ⟨nar, st, ph, dlg, dmg, ps, es⟩ := rd
  cases st <;> cases ph <;>
    simp only [playRoundWith, updateSummaryWith] <;>
    split_ifs <;> simp

theorem prw_histlen_succ (rd : RoundRecord) (reply action : String)
    (s : GameState) :
    ((playRoundWith (fun t => (t, rd)) (fun t => (t, reply)) action s).1).history.length
      = s.history.length + 1 := by
  obtain ⟨nar, st, ph, dlg, dmg, ps, es⟩ := rd
  cases st <;> cases ph <;>
    simp only [playRoundWith, updateSummaryWith] <;>
    split_ifs <;> simp

theorem prw_phase_eq (rd : RoundRecord) (reply action : String)
    (s : GameState) :
    ((playRoundWith (fun t => (t, rd)) (fun t => (t, reply)) action s).1).phase
      = rd.phase.getD s.phase := by
  obtain ⟨nar, st, ph, dlg, dmg, ps, es⟩ := rd
  cases st <;> cases ph <;>
    simp only [playRoundWith, updateSummaryWith] <;>
    split_ifs <;> simp

theorem prw_status_some (rd : RoundRecord) (st : RoundStatus)
    (reply action : String) (s : GameState) (hst : rd.status = some st) :
    let s2 := (playRoundWith (fun t => (t, rd)) (fun t => (t, reply)) action s).1
    s2.player.hp = some (max 0 (min (st.player_hp.getD 0) 2000)) ∧
    s2.enemy.hp = some (max 0 (min (st.enemy_hp.getD 0) 2000)) ∧
    s2.player.conc = some (max 0 (min (st.player_conc.getD 0) 100)) ∧
    s2.enemy.conc = some (max 0 (min (st.enemy_conc.getD 0) 100)) := by
  intro s2
  obtain ⟨nar, st0, ph, dlg, dmg, ps, es⟩ := rd
  simp only [RoundRecord.status] at hst
  subst hst
  cases ph <;>
    simp only [s2, playRoundWith, updateSummaryWith, clampStatus] <;>
    split_ifs <;> simp

theorem prw_status_none (rd : RoundRecord) (reply action : String)
    (s : GameState) (hst : rd.status = none) :
    let s2 := (playRoundWith (fun t => (t, rd)) (fun t => (t, reply)) action s).1
    s2.player.hp = s.player.hp ∧ s2.enemy.hp = s.enemy.hp ∧
    s2.player.conc = s.player.conc ∧ s2.enemy.conc = s.enemy.conc := by
  intro s2
  obtain ⟨nar, st0, ph, dlg, dmg, ps, es⟩ := rd
  simp only [RoundRecord.status] at hst
  subst hst
  cases ph <;>
    simp only [s2, playRoundWith, updateSummaryWith] <;>
    split_ifs <;> simp

/-- C3: the game-over predicate returns true exactly when player hp = 0,
or enemy hp = 0, or phase = "ending", or round ≥ 20; in particular every
state with round ≥ 20 is reported over.  The source compares hp <= 0; for
the nonnegative hp values of the data model this is hp = 0. -/
theorem isGameOver_iff (s : GameState)
    (hp : 0 ≤ s.player.hp.getD 0) (he : 0 ≤ s.enemy.hp.getD 0) :
    isGameOver s = true ↔
      (s.player.hp.getD 0 = 0 ∨ s.enemy.hp.getD 0 = 0 ∨
        s.phase = "ending" ∨ 20 ≤ s.round) := by
  unfold isGameOver
  simp only [Bool.or_eq_true, decide_eq_true_eq, beq_iff_eq]
  constructor
  · rintro (((h | h) | h) | h)
    · exact Or.inl (le_antisymm h hp)
    · exact Or.inr (Or.inl (le_antisymm h he))
    · exact Or.inr (Or.inr (Or.inl h))
    · exact Or.inr (Or.inr (Or.inr h))
  · rintro (h | h | h | h)
    · exact Or.inl (Or.inl (Or.inl (le_of_eq h)))
    · exact Or.inl (Or.inl (Or.inr (le_of_eq h)))
    · exact Or.inl (Or.inr h)
    · exact Or.inr h

/-- Witness for C3: a fresh state at round 20 has nonnegative hp and is
reported over through the round cap. -/
theorem isGameOver_iff_witness :
    isGameOver { freshGameState with round := 20 } = true :=
  (isGameOver_iff { freshGameState with round := 20 } (by decide)
    (by decide)).mpr (Or.inr (Or.inr (Or.inr (by decide))))

/-- C5: with every live attempt failing, the retry loop performs backoff
waits of 2^0 = 1 and 2^1 = 2 seconds after the two failed non-final
attempts and, after the final failed attempt, returns the offline output
for the same prompt instead of raising (the Lean function is total, so a
result is always returned). -/
theorem callAiReal_retriesThenOffline (oracle : Nat → Option String)
    (mockText : String)
    (h0 : oracle 0 = none) (h1 : oracle 1 = none) (h2 : oracle 2 = none) :
    callAiReal oracle mockText 3 = (mockText, [1, 2]) := by
  unfold callAiReal
  norm_num [callAiRealGo, h0, h1, h2]

/-- Witness for C5 at an always-failing oracle. -/
theorem callAiReal_retriesThenOffline_witness :
    callAiReal (fun _ => none) ("模拟文本") 3 = ("模拟文本", [1, 2]) :=
  callAiReal_retriesThenOffline (fun _ => none) ("模拟文本") rfl rfl rfl

/-- C10: a play_round invocation whose repaired record has no top-level
status field leaves both combatants' hp and conc completely unchanged (no
zero-defaulting), while the round counter still increments by 1 and one
history entry is still appended. -/
theorem playRound_noStatus_frame (rd : RoundRecord) (reply action : String)
    (s : GameState) (hst : rd.status = none) :
    let s2 := (playRoundWith (fun t => (t, rd)) (fun t => (t, reply)) action s).1
    s2.player.hp = s.player.hp ∧ s2.player.conc = s.player.conc ∧
    s2.enemy.hp = s.enemy.hp ∧ s2.enemy.conc = s.enemy.conc ∧
    s2.round = s.round + 1 ∧ s2.history.length = s.history.length + 1 := by
  intro s2
  obtain ⟨h1, h2, h3, h4⟩ := prw_status_none rd reply action s hst
  exact ⟨h1, h3, h2, h4, prw_round_succ rd reply action s,
    prw_histlen_succ rd reply action s⟩

/-- Witness for C10: a record carrying only a phase, applied to the
post-initialization state. -/
theorem playRound_noStatus_frame_witness :
    sAfterNoStatus.player.hp = sAfterInit.player.hp ∧
    sAfterNoStatus.round = sAfterInit.round + 1 := by
  obtain ⟨h1, _, _, _, h5, _⟩ :=
    playRound_noStatus_frame rdNoStatus ("") ("attack") sAfterInit rfl
  exact ⟨h1, h5⟩

/-- Counterexample to C1: a crafted backend response forcing player hp to
0 while reporting phase battle.  The next status snapshot reports
game_over = true, but its phase is the backend's literal "battle", not
"ending": play_round stores a backend-supplied phase verbatim (line 462)
and no hp-threshold re-derivation of the phase exists. -/
theorem craftedHpZero_phaseNotForced :
    (getGameStatus sAfterCrafted).game_over = true ∧
    (getGameStatus sAfterCrafted).phase = "battle" ∧
    (getGameStatus sAfterCrafted).phase ≠ "ending" := by
  refine ⟨rfl, rfl, by decide⟩

/-- C1 amended: when a round's backend response forces player hp to 0 (any
reported value ≤ 0), the next status() call reports game_over = true —
the hp check inside is_game_over is the safety net — but the reported
phase is exactly the backend-supplied phase string (or the previous phase
when none was supplied); phase "ending" is not force-applied. -/
theorem playRound_hpZero_gameOverSafetyNet (rd : RoundRecord)
    (st : RoundStatus) (v : Int) (reply action : String) (s : GameState)
    (hst : rd.status = some st) (hv : st.player_hp = some v) (hv0 : v ≤ 0) :
    let s2 := (playRoundWith (fun t => (t, rd)) (fun t => (t, reply)) action s).1
    (getGameStatus s2).game_over = true ∧
    (getGameStatus s2).phase = rd.phase.getD s.phase := by
  intro s2
  obtain ⟨h1, _, _, _⟩ := prw_status_some rd st reply action s hst
  constructor
  · show isGameOver s2 = true
    unfold isGameOver
    rw [h1, hv]
    have hz : max 0 (min v 2000) ≤ (0 : Int) := by omega
    simp [hz]
  · exact prw_phase_eq rd reply action s

/-- Witness for C1 amended, at the crafted record and the offline
post-initialization state. -/
theorem playRound_hpZero_gameOverSafetyNet_witness :
    (getGameStatus sAfterCrafted).game_over = true ∧
    (getGameStatus sAfterCrafted).phase
      = rdPlayerDown.phase.getD sAfterInit.phase :=
  playRound_hpZero_gameOverSafetyNet rdPlayerDown
    { player_hp := some 0, enemy_hp := some 1500,
      player_conc := some 50, enemy_conc := some 50 }
    0 ("") ("attack") sAfterInit rfl rfl (by decide)

/-- Counterexample to C2: the backend reports player hp 2000 against the
offline player whose max_hp is 1200; play_round clamps into [0, 2000]
(line 448), not [0, max_hp], and stores 2000 — so hp ≤ max_hp fails after
an engine-applied mutation. -/
theorem playRound_hpAboveMaxHp :
    sAfterOverMax.player.hp = some 2000 ∧
    sAfterOverMax.player.max_hp = some 1200 ∧
    ¬ sAfterOverMax.player.hp.getD 0 ≤ sAfterOverMax.player.max_hp.getD 0 := by
  refine ⟨rfl, rfl, by decide⟩

/-- C2 amended: when play_round applies a backend status block, the stored
values are clamped into 0 ≤ hp ≤ 2000 and 0 ≤ conc ≤ 100 for both
combatants (the hp bound is the fixed constant 2000, not max_hp;
initialize_game adopts present backend combatant dicts unclamped). -/
theorem playRound_clampsStatusBounds (rd : RoundRecord) (st : RoundStatus)
    (reply action : String) (s : GameState) (hst : rd.status = some st) :
    let s2 := (playRoundWith (fun t => (t, rd)) (fun t => (t, reply)) action s).1
    (0 ≤ s2.player.hp.getD 0 ∧ s2.player.hp.getD 0 ≤ 2000) ∧
    (0 ≤ s2.enemy.hp.getD 0 ∧ s2.enemy.hp.getD 0 ≤ 2000) ∧
    (0 ≤ s2.player.conc.getD 0 ∧ s2.player.conc.getD 0 ≤ 100) ∧
    (0 ≤ s2.enemy.conc.getD 0 ∧ s2.enemy.conc.getD 0 ≤ 100) := by
  intro s2
  obtain ⟨h1, h2, h3, h4⟩ := prw_status_some rd st reply action s hst
  rw [h1, h2, h3, h4]
  simp only [Option.getD_some]
  omega

/-- Witness for C2 amended, at the over-max record: the stored values are
in the clamp ranges. -/
theorem playRound_clampsStatusBounds_witness :
    (0 ≤ sAfterOverMax.player.hp.getD 0 ∧
      sAfterOverMax.player.hp.getD 0 ≤ 2000) ∧
    (0 ≤ sAfterOverMax.enemy.hp.getD 0 ∧
      sAfterOverMax.enemy.hp.getD 0 ≤ 2000) ∧
    (0 ≤ sAfterOverMax.player.conc.getD 0 ∧
      sAfterOverMax.player.conc.getD 0 ≤ 100) ∧
    (0 ≤ sAfterOverMax.enemy.conc.getD 0 ∧
      sAfterOverMax.enemy.conc.getD 0 ≤ 100) :=
  playRound_clampsStatusBounds rdOverMax
    { player_hp := some 2000, enemy_hp := some 1500,
      player_conc := some 50, enemy_conc := some 50 }
    ("") ("attack") sAfterInit rfl

/-- Counterexample to C4: on text where all three parse strategies fail,
extract_json does not return a parse error — it fabricates a substitute
record by calling the mock round generator (line 262), whose canned
enemy skill shows up in the returned record, and whose used-skills side
effect hits the engine state. -/
theorem extractJson_fallbackFabricates :
    ((extractJson (fun _ => none) ("纯文本") freshGameState).2.enemy_skill_used
      = some ("触手鞭笞")) ∧
    ((extractJson (fun _ => none) ("纯文本") freshGameState).1.enemy_skills_used
      = ["触手鞭笞"]) := by
  constructor <;> rfl

/-- C4 amended: extract_json attempts exactly three strategies in order,
stopping at the first that succeeds — (a) parse the trimmed text verbatim,
(b) parse the substring from the first opening brace to the last closing
brace inclusive, (c) strip comment-like lines and re-parse — and when all
three fail it returns the offline mock generator's round record for the
current state (with that generator's used-skills side effect), never a
parse error. -/
theorem extractJson_strategyOrder (loads : String → Option RoundRecord)
    (text : String) (s : GameState) :
    (∀ d, loads (pyStrip text) = some d → extractJson loads text s = (s, d)) ∧
    (∀ d, loads (pyStrip text) = none →
      (braceSubstring (pyStrip text)).bind loads = some d →
      extractJson loads text s = (s, d)) ∧
    (∀ d, loads (pyStrip text) = none →
      (braceSubstring (pyStrip text)).bind loads = none →
      loads (stripCommentLines (pyStrip text)) = some d →
      extractJson loads text s = (s, d)) ∧
    (loads (pyStrip text) = none →
      (braceSubstring (pyStrip text)).bind loads = none →
      loads (stripCommentLines (pyStrip text)) = none →
      extractJson loads text s = callAiMockRound s) := by
  unfold extractJson
  refine ⟨?_, ?_, ?_, ?_⟩
  · intro d h
    simp only [h]
  · intro d h1 h2
    simp only [h1, h2]
  · intro d h1 h2 h3
    simp only [h1, h2, h3]
  · intro h1 h2 h3
    simp only [h1, h2, h3]

/-- Witness for C4 amended: an always-failing parser reaches the mock
fallback. -/
theorem extractJson_strategyOrder_witness :
    extractJson (fun _ => none) ("完全失败") freshGameState
      = callAiMockRound freshGameState :=
  (extractJson_strategyOrder (fun _ => none) ("完全失败")
    freshGameState).2.2.2 rfl rfl rfl

theorem mockBucketSkill_ne_empty (n : Nat) : mockBucketSkill n ≠ "" := by
  unfold mockBucketSkill
  split_ifs <;> decide

theorem callAiMockRound_fst (s : GameState) :
    (callAiMockRound s).1 = { s with enemy_skills_used :=
      (if mockBucketSkill (s.round + 1) ∈ s.enemy_skills_used then
        s.enemy_skills_used
      else s.enemy_skills_used ++ [mockBucketSkill (s.round + 1)]) } := by
  simp only [callAiMockRound, mockBucketSkill]
  split_ifs <;> simp_all

theorem callAiMockRound_skillUsed (s : GameState) :
    (callAiMockRound s).2.enemy_skill_used
      = some (mockBucketSkill (s.round + 1)) := by
  simp only [callAiMockRound, mockBucketSkill]
  split_ifs <;> simp_all

theorem callAiMockRound_status_isSome (s : GameState) :
    ∃ st, (callAiMockRound s).2.status = some st := by
  simp only [callAiMockRound]
  split_ifs <;> exact ⟨_, rfl⟩

theorem callAiMockRound_phase_isSome (s : GameState) :
    ∃ ph0, (callAiMockRound s).2.phase = some ph0 := by
  simp only [callAiMockRound]
  split_ifs <;> exact ⟨_, rfl⟩

theorem mem_ite_append (u : List String) (k : String) :
    k ∈ (if k ∈ u then u else u ++ [k]) := by
  split_ifs with h
  · exact h
  · simp

/-- Field characterization of an offline play_round: the round counter
increments, exactly one history entry is appended, and the used-skills
sequence gains the enemy skill of the mock bucket for the incremented
round (current_round = round + 2 as seen from the pre-call state), if not
already present — the engine-side recording and the summary call repeat
the same skill and change nothing further. -/
theorem playRoundOffline_core (dump : RoundRecord → String) (a : String)
    (s : GameState) :
    ((playRoundOffline dump a s).1.round = s.round + 1) ∧
    ((playRoundOffline dump a s).1.history.length = s.history.length + 1) ∧
    ((playRoundOffline dump a s).1.enemy_skills_used =
      (if mockBucketSkill (s.round + 2) ∈ s.enemy_skills_used then
        s.enemy_skills_used
      else s.enemy_skills_used ++ [mockBucketSkill (s.round + 2)])) := by
  obtain ⟨st1, hst1⟩ :=
    callAiMockRound_status_isSome { s with round := s.round + 1 }
  obtain ⟨ph1, hph1⟩ :=
    callAiMockRound_phase_isSome { s with round := s.round + 1 }
  have hmem :=
    mem_ite_append s.enemy_skills_used (mockBucketSkill (s.round + 2))
  simp only [playRoundOffline, playRoundWith, updateSummaryWith,
    callAiMockRound_fst, callAiMockRound_skillUsed, hst1, hph1,
    Option.getD_some, show s.round + 1 + 1 = s.round + 2 from rfl]
  simp only [hmem, not_true, and_false, if_false, List.length_append,
    List.length_cons, List.length_nil]
  refine ⟨?_, ?_, ?_⟩ <;> split_ifs <;>
    simp_all [callAiMockRound_fst, hmem,
      show s.round + 1 + 1 = s.round + 2 from rfl]

/-- C6: offline mode, initialize then 3 consecutive play_round("attack")
calls — the round counter reaches 3, the history holds 4 entries (init
plus one per round), and the first-bucket enemy skill 触手鞭笞 is in the
used-skills sequence from the end of round 1 onward.  dump abstracts
json.dumps on the summary call's mock record; none of these fields depend
on it. -/
theorem offline_threeRounds_progress (dump : RoundRecord → String) :
    let s1 := (playRoundOffline dump ("attack") sAfterInit).1
    let s2 := (playRoundOffline dump ("attack") s1).1
    let s3 := (playRoundOffline dump ("attack") s2).1
    s3.round = 3 ∧ s3.history.length = 4 ∧
    "触手鞭笞" ∈ s1.enemy_skills_used ∧
    "触手鞭笞" ∈ s2.enemy_skills_used ∧
    "触手鞭笞" ∈ s3.enemy_skills_used := by
  intro s1 s2 s3
  have r1 : s1.round = sAfterInit.round + 1 :=
    (playRoundOffline_core dump ("attack") sAfterInit).1
  have l1 : s1.history.length = sAfterInit.history.length + 1 :=
    (playRoundOffline_core dump ("attack") sAfterInit).2.1
  have u1 : s1.enemy_skills_used =
      (if mockBucketSkill (sAfterInit.round + 2) ∈ sAfterInit.enemy_skills_used
        then sAfterInit.enemy_skills_used
        else sAfterInit.enemy_skills_used
          ++ [mockBucketSkill (sAfterInit.round + 2)]) :=
    (playRoundOffline_core dump ("attack") sAfterInit).2.2
  have r2 : s2.round = s1.round + 1 :=
    (playRoundOffline_core dump ("attack") s1).1
  have l2 : s2.history.length = s1.history.length + 1 :=
    (playRoundOffline_core dump ("attack") s1).2.1
  have u2 : s2.enemy_skills_used =
      (if mockBucketSkill (s1.round + 2) ∈ s1.enemy_skills_used
        then s1.enemy_skills_used
        else s1.enemy_skills_used ++ [mockBucketSkill (s1.round + 2)]) :=
    (playRoundOffline_core dump ("attack") s1).2.2
  have r3 : s3.round = s2.round + 1 :=
    (playRoundOffline_core dump ("attack") s2).1
  have l3 : s3.history.length = s2.history.length + 1 :=
    (playRoundOffline_core dump ("attack") s2).2.1
  have u3 : s3.enemy_skills_used =
      (if mockBucketSkill (s2.round + 2) ∈ s2.enemy_skills_used
        then s2.enemy_skills_used
        else s2.enemy_skills_used ++ [mockBucketSkill (s2.round + 2)]) :=
    (playRoundOffline_core dump ("attack") s2).2.2
  have h0r : sAfterInit.round = 0 := rfl
  have h0l : sAfterInit.history.length = 1 := rfl
  have h0u : sAfterInit.enemy_skills_used = [] := rfl
  rw [h0r, h0u] at u1
  norm_num [show mockBucketSkill 2 = "触手鞭笞" from rfl] at u1
  rw [h0r] at r1
  rw [r1, u1] at u2
  norm_num [show mockBucketSkill 3 = "触手鞭笞" from rfl] at u2
  rw [r1] at r2
  rw [r2, u2] at u3
  norm_num [show mockBucketSkill 4 = "油污喷射" from rfl] at u3
  refine ⟨by omega, by omega, ?_, ?_, ?_⟩
  · rw [u1]; simp
  · rw [u2]; simp
  · rw [u3]; simp

/-- Counterexample to C7: at the end of the 3rd completed turn (round 3,
history length 4 = init + 3 rounds) update_summary does nothing even when
the backend reply is long — the trigger is len(history) % 3 == 0, which
fires after turns 2, 5, 8, …, not every 3rd turn; at the end of turn 2
(history length 3) it does replace the summary. -/
theorem summary_notOnThirdTurn :
    (updateSummaryWith (fun t => (t, longReply)) sThirdTurnDone
      = sThirdTurnDone) ∧
    ((updateSummaryWith (fun t => (t, longReply)) sThirdTurnDone).current_summary
      ≠ longReply) ∧
    ((updateSummaryWith (fun t => (t, longReply)) sSecondTurnDone).current_summary
      = longReply) := by
  refine ⟨rfl, by decide, rfl⟩

/-- C7 amended: summarization fires exactly when the history length is ≥ 2
and a multiple of 3 (counting the init entry: after turns 2, 5, 8, …); it
then replaces — never appends to — the rolling summary, and only when the
reply is non-empty with length above 10; a short reply leaves the summary
unchanged, and off-cycle calls leave the whole state untouched. -/
theorem updateSummary_trigger (reply : String) (s : GameState) :
    (s.history.length % 3 = 0 → 2 ≤ s.history.length → 10 < reply.length →
      (updateSummaryWith (fun t => (t, reply)) s).current_summary = reply) ∧
    (reply.length ≤ 10 →
      (updateSummaryWith (fun t => (t, reply)) s).current_summary
        = s.current_summary) ∧
    (s.history.length % 3 ≠ 0 →
      updateSummaryWith (fun t => (t, reply)) s = s) := by
  unfold updateSummaryWith
  have hne : 10 < reply.length → reply ≠ "" := by
    intro h hemp
    rw [hemp] at h
    simp at h
  refine ⟨?_, ?_, ?_⟩
  · intro h3 h2 hlen
    rw [if_neg (by omega), if_pos (by simpa using h3)]
    have hc : reply ≠ "" ∧ 10 < reply.length := ⟨hne hlen, hlen⟩
    simp [hc]
  · intro hle
    dsimp only
    split_ifs with g1 g2 g3
    · rfl
    · exact absurd g3.2 (by omega)
    · rfl
    · rfl
  · intro h3
    dsimp only
    split_ifs <;> simp_all

/-- Witness for C7 amended: the long reply replaces the summary at the end
of turn 2. -/
theorem updateSummary_trigger_witness :
    (updateSummaryWith (fun t => (t, longReply)) sSecondTurnDone).current_summary
      = longReply :=
  (updateSummary_trigger longReply sSecondTurnDone).1 (by decide) (by decide)
    (by decide)

/-- Counterexample to C8: get_game_status copies the combatant dicts only
shallowly, so the snapshot's nested skills list is the same heap object as
the engine's; a caller appending to it through the snapshot changes the
skills the engine sees.  Concretely, after the caller's in-place append,
the engine's player-skills view gains the injected skill. -/
theorem snapshot_nestedMutationLeaks :
    heapAfterCallerMutation objS0.player.skillsRef
      ≠ heap0 objS0.player.skillsRef ∧
    heapAfterCallerMutation objS0.player.skillsRef
      = [demoSkill, injectedSkill] := by
  constructor
  · decide
  · rfl

/-- C8 amended: the status snapshot copies the combatant dicts and the
used-skills list, so assigning to a snapshot's own top-level slots cannot
touch the engine; but dict.copy() is shallow — the snapshot's combatants
hold the very same skills-list references as the engine's, so in-place
mutation of a snapshot combatant's skills does reach engine state. -/
theorem getGameStatus_shallowCopy (s : ObjState) :
    ((objGetGameStatus s).player.skillsRef = s.player.skillsRef) ∧
    ((objGetGameStatus s).enemy.skillsRef = s.enemy.skillsRef) ∧
    ((objGetGameStatus s).enemy_skills_used = s.enemy_skills_used) ∧
    ((objGetGameStatus s).round = s.round) ∧
    ((objGetGameStatus s).phase = s.phase) ∧
    ((objGetGameStatus s).game_over = objIsGameOver s) :=
  ⟨rfl, rfl, rfl, rfl, rfl, rfl⟩

/-- Counterexample to C9: calling the mock round generator is not
state-transparent — at the post-initialization state (empty used-skills),
one call records the first-bucket skill into the engine's used-skills
list. -/
theorem mockRound_mutatesUsedSkills :
    sAfterInit.enemy_skills_used = [] ∧
    (callAiMockRound sAfterInit).1.enemy_skills_used = ["触手鞭笞"] := by
  constructor <;> rfl

/-- C9 amended: the offline generator is deterministic (a pure function of
the engine state), but its round branch reads more than the round counter
— current hp, conc and names feed the numbers and narrative — and it
mutates the state: it appends the bucket's enemy skill (buckets keyed by
round + 1) to the used-skills list when absent, leaving every other state
field unchanged. -/
theorem mockRound_frameAndSkill (s : GameState) :
    ((callAiMockRound s).1.player = s.player) ∧
    ((callAiMockRound s).1.enemy = s.enemy) ∧
    ((callAiMockRound s).1.round = s.round) ∧
    ((callAiMockRound s).1.phase = s.phase) ∧
    ((callAiMockRound s).1.history = s.history) ∧
    ((callAiMockRound s).1.current_summary = s.current_summary) ∧
    ((callAiMockRound s).1.battle_reason = s.battle_reason) ∧
    ((callAiMockRound s).1.mode = s.mode) ∧
    ((callAiMockRound s).2.enemy_skill_used
      = some (mockBucketSkill (s.round + 1))) ∧
    ((callAiMockRound s).1.enemy_skills_used =
      (if mockBucketSkill (s.round + 1) ∈ s.enemy_skills_used then
        s.enemy_skills_used
      else s.enemy_skills_used ++ [mockBucketSkill (s.round + 1)])) := by
  have h1 := callAiMockRound_fst s
  have h2 := callAiMockRound_skillUsed s
  rw [h1, h2]
  refine ⟨rfl, rfl, rfl, rfl, rfl, rfl, rfl, rfl, rfl, rfl⟩

